import Mathlib

/-!
Verification of the EVOQUE storefront cart-reconciliation and catalog logic
(`src/frontend/src/context/shopContext.tsx`, `src/frontend/src/pages/Collection.tsx`).

JavaScript objects keyed by strings are modelled as association lists that keep
insertion order, exactly as `Object.entries` / `for ... in` iterate them:
`alGet` is property lookup, `alSet` is property assignment (updates the first
matching key in place, otherwise appends), `alErase` is the `delete` operator.
Numbers are modelled as `Int` (the claims do not depend on fractional values).
Network interaction of the authenticated branches is modelled by passing the
axios outcome (`AxiosResult`) as an explicit parameter, and every user-visible
effect (toast, HTTP request) is recorded in an event list.
-/

/-- Lookup of a property in a JS-object modelled as an association list. -/
def alGet {β : Type} (k : String) : List (String × β) → Option β
  | [] => none
  | (k', v') :: t => if k' = k then some v' else alGet k t

/-- Property assignment `o[k] = v`: replaces the first binding of `k` in place
(JS objects keep the original key position on re-assignment), else appends. -/
def alSet {β : Type} (k : String) (v : β) : List (String × β) → List (String × β)
  | [] => [(k, v)]
  | (k', v') :: t => if k' = k then (k, v) :: t else (k', v') :: alSet k v t

/-- The JS `delete o[k]` operator: removes the binding(s) of `k`. -/
def alErase {β : Type} (k : String) : List (String × β) → List (String × β)
  | [] => []
  | (k', v') :: t => if k' = k then alErase k t else (k', v') :: alErase k t

/-- Keys of the object, in order. -/
def alKeys {β : Type} (l : List (String × β)) : List String := l.map Prod.fst

/-- As in `shopContext.tsx`: the per-product size map, `size -> quantity`. -/
abbrev CartItem := List (String × Int)

/-- As in `shopContext.tsx`: the cart, `productId -> (size -> quantity)`. -/
abbrev CartData := List (String × CartItem)

/-- Nested lookup: quantity stored for `(productId, size)`, if any. -/
def cartGet (cart : CartData) (productId size : String) : Option Int :=
  match alGet productId cart with
  | none => none
  | some inner => alGet size inner

/-- The `Product` interface of `shopContext.tsx` (fields not used by any claim
are omitted; numeric fields are `Int`). -/
structure Product where
  _id : String
  name : String
  price : Int
  sizes : List String
  stock : Int
  date : Int
  averageRating : Int
deriving DecidableEq, Repr

/-- One element of an array-shaped server cart payload
(`{productId, size, quantity}`). -/
structure CartLine where
  productId : String
  size : String
  quantity : Int
deriving DecidableEq, Repr

/-- User-visible / outward effects an operation performs, in order. -/
inductive Evt where
  | toastSuccess (msg : String)
  | toastError (msg : String)
  | networkPost (url : String)
deriving DecidableEq, Repr

/-- Whether an event is an HTTP request. -/
def Evt.isNet : Evt → Bool
  | .networkPost _ => true
  | _ => false

/-- Whether an event is an error toast. -/
def Evt.isErr : Evt → Bool
  | .toastError _ => true
  | _ => false

/-- Outcome of an awaited axios call: either the promise rejected (network
error / HTTP error status) or it resolved to a response body. -/
inductive AxiosResult (α : Type) where
  | thrown (msg : String)
  | resp (r : α)

/-- Response body of `POST /api/cart/add` (object-shaped `cartData`). -/
structure AddResp where
  success : Bool
  message : Option String
  cartData : CartData

/-- The `cartData` field of a `POST /api/cart/update` response: the code
branches on it being object-shaped, array-shaped, or anything else. -/
inductive RespCartData where
  | obj (c : CartData)
  | arr (items : List CartLine)
  | other

/-- Response body of `POST /api/cart/update`. -/
structure UpdateResp where
  success : Bool
  message : Option String
  cartData : RespCartData

/-- Response body of `POST /api/cart/remove` (`cartData` present only when
array-shaped). -/
structure RemoveResp where
  success : Bool
  message : Option String
  cartData : Option (List CartLine)

/-- Response body of `GET /api/cart` (`cartItems` present only when an array). -/
structure FetchResp where
  success : Bool
  cartItems : Option (List CartLine)

/-- Response body of `POST /api/cart/merge`. -/
structure MergeResp where
  success : Bool
  message : Option String

/-- JS truthiness of a nullable string (`null` and `""` are falsy). -/
def strTruthy : Option String → Bool
  | none => false
  | some s => !(s = "")

/-- The provider state the claims range over: the tinybase `cart` table
(`store`), the React `cartItem` mirror, and the two tokens. -/
structure ShopState where
  storeCart : CartData
  cartItem : CartData
  token : Option String
  csrfToken : Option String
deriving DecidableEq, Repr

/-- `saveCartToStore`: writes the cart to the tinybase store and to the
`cartItem` state. -/
def saveCartToStore (cartData : CartData) (s : ShopState) : ShopState :=
  { s with storeCart := cartData, cartItem := cartData }

/-- `getCartFromStore`: reads the cart back from the tinybase store. -/
def getCartFromStore (s : ShopState) : CartData := s.storeCart

/-- `isAuthenticated && token && csrfToken`: the routing condition for the
authenticated branch (`isAuthenticated` is `!!token`, so it is redundant). -/
def authRoute (s : ShopState) : Bool :=
  strTruthy s.token && strTruthy s.csrfToken

/-- The verbatim nested copy of an object-shaped `cartData` response used by
the authenticated `add` and (object branch of) `update`:
`for ([productId, sizes]) { cartData[productId] = {}; for ([size, quantity]) cartData[productId][size] = quantity }`. -/
def copyCart (r : CartData) : CartData :=
  r.foldl
    (fun acc e =>
      alSet e.1 (e.2.foldl (fun inner l => alSet l.1 l.2 inner) []) acc)
    []

/-- Rebuild of a cart from an array-shaped payload keeping only lines with
`quantity > 0` (used by `getCartData` and by the array branch of `remove`):
`if (!cartData[p]) cartData[p] = {}; if (q > 0) cartData[p][size] = q`. -/
def buildFromLinesPos (items : List CartLine) : CartData :=
  items.foldl
    (fun acc it =>
      let acc1 := if (alGet it.productId acc).isSome then acc
                  else alSet it.productId [] acc
      if 0 < it.quantity then
        alSet it.productId
          (alSet it.size it.quantity ((alGet it.productId acc1).getD [])) acc1
      else acc1)
    []

/-- Rebuild of a cart from an array-shaped payload with no quantity filter
(array branch of the authenticated `update`). -/
def buildFromLinesAll (items : List CartLine) : CartData :=
  items.foldl
    (fun acc it =>
      let acc1 := if (alGet it.productId acc).isSome then acc
                  else alSet it.productId [] acc
      alSet it.productId
        (alSet it.size it.quantity ((alGet it.productId acc1).getD [])) acc1)
    []

/-- `products.find((p) => p._id === productId)`. -/
def findProduct (products : List Product) (productId : String) : Option Product :=
  products.find? (fun p => p._id == productId)

/-- `addCartItem` of `shopContext.tsx` (the axios outcome of the authenticated
branch is the `server` parameter; returned events record toasts and requests). -/
def addCartItem (products : List Product) (s : ShopState)
    (productId size : String) (quantity : Int)
    (server : AxiosResult AddResp) : ShopState × List Evt :=
  match findProduct products productId with
  | none => (s, [.toastError "Product not found"])
  | some product =>
    if product.sizes.contains size then
      if product.stock < quantity then (s, [.toastError "Insufficient stock"])
      else if authRoute s then
        match server with
        | .thrown m => (s, [.networkPost "/api/cart/add", .toastError m])
        | .resp r =>
          if r.success then
            (saveCartToStore (copyCart r.cartData) s,
             [.networkPost "/api/cart/add", .toastSuccess "Added to cart"])
          else
            (s, [.networkPost "/api/cart/add",
                 .toastError (r.message.getD "Failed to add to cart")])
      else
        let currentCart := getCartFromStore s
        let inner := (alGet productId currentCart).getD []
        let newCart :=
          alSet productId
            (alSet size ((alGet size inner).getD 0 + quantity) inner) currentCart
        (saveCartToStore newCart s, [.toastSuccess "Added to cart"])
    else (s, [.toastError "Invalid size"])

/-- Shared shape of the guest-mode line removal used by `updateCartItem`
(quantity ≤ 0), `removeCartItem` and the authenticated `remove` fallback:
`delete cart[productId][size]; if (Object.keys(cart[productId]).length === 0) delete cart[productId]`. -/
def deleteLine (cart : CartData) (productId size : String) : CartData :=
  match alGet productId cart with
  | none => cart
  | some inner =>
    let inner' := alErase size inner
    if inner'.isEmpty then alErase productId cart
    else alSet productId inner' cart

/-- `updateCartItem` of `shopContext.tsx`. -/
def updateCartItem (products : List Product) (s : ShopState)
    (productId size : String) (quantity : Int)
    (server : AxiosResult UpdateResp) : ShopState × List Evt :=
  match findProduct products productId with
  | none => (s, [.toastError "Product not found"])
  | some product =>
    if product.sizes.contains size then
      if 0 < quantity ∧ product.stock < quantity then
        (s, [.toastError "Insufficient stock"])
      else if authRoute s then
        match server with
        | .thrown m => (s, [.networkPost "/api/cart/update", .toastError m])
        | .resp r =>
          if r.success then
            let cartData :=
              match r.cartData with
              | .obj c => copyCart c
              | .arr items => buildFromLinesAll items
              | .other => []
            (saveCartToStore cartData s,
             [.networkPost "/api/cart/update",
              .toastSuccess (r.message.getD "Cart updated")])
          else
            (s, [.networkPost "/api/cart/update",
                 .toastError (r.message.getD "Failed to update cart")])
      else
        let currentCart := getCartFromStore s
        let newCart :=
          if quantity ≤ 0 then deleteLine currentCart productId size
          else
            alSet productId
              (alSet size quantity ((alGet productId currentCart).getD []))
              currentCart
        (saveCartToStore newCart s, [.toastSuccess "Cart updated"])
    else (s, [.toastError "Invalid size"])

/-- `removeCartItem` of `shopContext.tsx`. -/
def removeCartItem (products : List Product) (s : ShopState)
    (productId size : String)
    (server : AxiosResult RemoveResp) : ShopState × List Evt :=
  match findProduct products productId with
  | none => (s, [.toastError "Product not found"])
  | some product =>
    if product.sizes.contains size then
      if authRoute s then
        match server with
        | .thrown m => (s, [.networkPost "/api/cart/remove", .toastError m])
        | .resp r =>
          if r.success then
            let localFallback := deleteLine (getCartFromStore s) productId size
            match r.cartData with
            | some items =>
              (saveCartToStore (buildFromLinesPos items) s,
               [.networkPost "/api/cart/remove",
                .toastSuccess (r.message.getD "Removed from cart")])
            | none =>
              (saveCartToStore localFallback s,
               [.networkPost "/api/cart/remove",
                .toastSuccess (r.message.getD "Removed from cart")])
          else
            (s, [.networkPost "/api/cart/remove",
                 .toastError (r.message.getD "Failed to remove from cart")])
      else
        let currentCart := getCartFromStore s
        match alGet productId currentCart with
        | some _ =>
          (saveCartToStore (deleteLine currentCart productId size) s,
           [.toastSuccess "Removed from cart"])
        | none => (s, [.toastError "Item not found in cart"])
    else (s, [.toastError "Invalid size"])

/-- `getCartData` of `shopContext.tsx`: silent early return if either token is
missing; on success rebuilds the cart from `cartItems` keeping quantities > 0;
on `success: false` only logs (no toast). -/
def getCartData (s : ShopState) (server : AxiosResult FetchResp) :
    ShopState × List Evt :=
  if !(strTruthy s.token) || !(strTruthy s.csrfToken) then (s, [])
  else
    match server with
    | .thrown m => (s, [.networkPost "/api/cart", .toastError m])
    | .resp r =>
      if r.success then
        let cartData :=
          match r.cartItems with
          | some items => buildFromLinesPos items
          | none => []
        (saveCartToStore cartData s, [.networkPost "/api/cart"])
      else (s, [.networkPost "/api/cart"])

/-- `mergeCart` of `shopContext.tsx`: silent early return if either token is
missing or the local cart is empty; on success clears the local cart, toasts,
and re-fetches via `getCartData` (whose axios outcome is `fetchServer`). -/
def mergeCart (s : ShopState) (server : AxiosResult MergeResp)
    (fetchServer : AxiosResult FetchResp) : ShopState × List Evt :=
  if !(strTruthy s.token) || !(strTruthy s.csrfToken) then (s, [])
  else
    let localCartData := getCartFromStore s
    if (alKeys localCartData).length = 0 then (s, [])
    else
      match server with
      | .thrown m => (s, [.networkPost "/api/cart/merge", .toastError m])
      | .resp r =>
        if r.success then
          let s1 := { s with storeCart := [], cartItem := [] }
          let fetched := getCartData s1 fetchServer
          (fetched.1,
           [Evt.networkPost "/api/cart/merge",
            Evt.toastSuccess (r.message.getD "Cart merged successfully")] ++ fetched.2)
        else
          (s, [.networkPost "/api/cart/merge",
               .toastError (r.message.getD "Failed to merge cart")])

/-- `getCartAmount` of `shopContext.tsx`: iterates the cart, skipping entries
whose product is not in the catalog, accumulating `price * quantity`. -/
def getCartAmount (products : List Product) (cartItem : CartData) : Int :=
  cartItem.foldl
    (fun totalAmount e =>
      match findProduct products e.1 with
      | some product =>
        e.2.foldl (fun t l => t + product.price * l.2) totalAmount
      | none => totalAmount)
    0

/-- The sort switch of `Collection.tsx` (`filteredProducts`): each case calls
the stable JS `Array.prototype.sort` with a subtraction comparator; comparator
`c` with `c a b ≤ 0` meaning `a` may stay before `b` corresponds to a stable
merge sort with `le a b = (c a b ≤ 0)`. The default case is `relevant`
(`(b.averageRating || 0) - (a.averageRating || 0)`; `|| 0` is the identity on
the integer model since `0 || 0 = 0`). -/
def sortProducts (sortType : String) (l : List Product) : List Product :=
  match sortType with
  | "low-high" => l.mergeSort (fun a b => a.price ≤ b.price)
  | "high-low" => l.mergeSort (fun a b => b.price ≤ a.price)
  | "newest" => l.mergeSort (fun a b => b.date ≤ a.date)
  | _ => l.mergeSort (fun a b => b.averageRating ≤ a.averageRating)

/-! ## Association-list lemmas -/

theorem alGet_alSet_self {β : Type} (k : String) (v : β) (l : List (String × β)) :
    alGet k (alSet k v l) = some v := by
  induction l with
  | nil => simp [alSet, alGet]
  | cons p t ih =>
    obtain ⟨k', v'⟩ := p
    by_cases h : k' = k
    · simp [alSet, h, alGet]
    · simp [alSet, h, alGet, ih]

theorem alGet_alSet_ne {β : Type} {k k' : String} (v : β) (l : List (String × β))
    (h : k' ≠ k) : alGet k (alSet k' v l) = alGet k l := by
  induction l with
  | nil => simp [alSet, alGet, h]
  | cons p t ih =>
    obtain ⟨k₀, v₀⟩ := p
    by_cases h0 : k₀ = k'
    · subst h0; simp [alSet, alGet, h]
    · by_cases h1 : k₀ = k
      · subst h1
        simp [alSet, alGet, h0, Ne.symm h]
      · simp [alSet, alGet, h0, h1, ih]

theorem alGet_alErase_self {β : Type} (k : String) (l : List (String × β)) :
    alGet k (alErase k l) = none := by
  induction l with
  | nil => simp [alErase, alGet]
  | cons p t ih =>
    obtain ⟨k₀, v₀⟩ := p
    by_cases h : k₀ = k
    · simp [alErase, h, ih]
    · simp [alErase, alGet, h, ih]

theorem alGet_alErase_ne {β : Type} {k k' : String} (l : List (String × β))
    (h : k ≠ k') : alGet k' (alErase k l) = alGet k' l := by
  induction l with
  | nil => simp [alErase]
  | cons p t ih =>
    obtain ⟨k₀, v₀⟩ := p
    by_cases h0 : k₀ = k
    · subst h0
      simp [alErase, alGet, h, ih]
    · by_cases h1 : k₀ = k'
      · subst h1
        simp [alErase, alGet, h0]
      · simp [alErase, alGet, h0, h1, ih]

theorem alGet_append_none {β : Type} {k : String} {l1 : List (String × β)}
    (l2 : List (String × β)) (h : alGet k l1 = none) :
    alGet k (l1 ++ l2) = alGet k l2 := by
  induction l1 with
  | nil => simp
  | cons p t ih =>
    obtain ⟨k₀, v₀⟩ := p
    by_cases h0 : k₀ = k
    · simp [alGet, h0] at h
    · simp [alGet, h0] at h ⊢
      exact ih h

theorem alSet_of_get_none {β : Type} {k : String} {l : List (String × β)} (v : β)
    (h : alGet k l = none) : alSet k v l = l ++ [(k, v)] := by
  induction l with
  | nil => simp [alSet]
  | cons p t ih =>
    obtain ⟨k₀, v₀⟩ := p
    by_cases h0 : k₀ = k
    · simp [alGet, h0] at h
    · simp [alGet, h0] at h
      simp [alSet, h0, ih h]

/-! ## The verbatim copy of an object-shaped response is the identity on
well-formed payloads (no duplicate keys, which JS objects guarantee). -/

/-- Well-formedness of a cart payload: no duplicate product keys and no
duplicate size keys (automatic for data coming from real JS objects). -/
def CartWF (c : CartData) : Prop :=
  (alKeys c).Nodup ∧ ∀ e ∈ c, (alKeys e.2).Nodup

theorem foldl_alSet_fresh {β : Type} :
    ∀ (l : List (String × β)) (acc : List (String × β)),
      (∀ p ∈ l, alGet p.1 acc = none) → (alKeys l).Nodup →
      l.foldl (fun i p => alSet p.1 p.2 i) acc = acc ++ l
  | [], acc, _, _ => by simp
  | p :: t, acc, hfresh, hnd => by
    have hp : alGet p.1 acc = none := hfresh p (by simp)
    have hstep : alSet p.1 p.2 acc = acc ++ [p] := by
      rw [alSet_of_get_none _ hp]
    have hnd0 : p.1 ∉ alKeys t ∧ (alKeys t).Nodup := by
      have hnd1 : (p.1 :: alKeys t).Nodup := by
        simpa only [alKeys, List.map_cons] using hnd
      exact List.nodup_cons.mp hnd1
    have hnd' : (alKeys t).Nodup := hnd0.2
    have hfresh' : ∀ q ∈ t, alGet q.1 (acc ++ [p]) = none := by
      intro q hq
      have hne : p.1 ≠ q.1 := by
        have hmem : q.1 ∈ alKeys t := List.mem_map_of_mem Prod.fst hq
        intro hcontra; exact hnd0.1 (hcontra ▸ hmem)
      rw [alGet_append_none _ (hfresh q (List.mem_cons_of_mem _ hq))]
      simp [alGet, hne]
    calc (p :: t).foldl (fun i q => alSet q.1 q.2 i) acc
        = t.foldl (fun i q => alSet q.1 q.2 i) (acc ++ [p]) := by
          simp [List.foldl_cons, hstep]
      _ = (acc ++ [p]) ++ t := foldl_alSet_fresh t (acc ++ [p]) hfresh' hnd'
      _ = acc ++ p :: t := by simp

theorem inner_copy_eq (inner : CartItem) (h : (alKeys inner).Nodup) :
    inner.foldl (fun i l => alSet l.1 l.2 i) [] = inner := by
  have := foldl_alSet_fresh inner [] (by intro p _; simp [alGet]) h
  simpa using this

theorem copyCart_aux :
    ∀ (r : CartData) (acc : CartData),
      (∀ e ∈ r, alGet e.1 acc = none) → (alKeys r).Nodup →
      (∀ e ∈ r, (alKeys e.2).Nodup) →
      r.foldl
        (fun acc e =>
          alSet e.1 (e.2.foldl (fun inner l => alSet l.1 l.2 inner) []) acc) acc
        = acc ++ r
  | [], acc, _, _, _ => by simp
  | e :: t, acc, hfresh, hnd, hinner => by
    have he : alGet e.1 acc = none := hfresh e (by simp)
    have hic : e.2.foldl (fun inner l => alSet l.1 l.2 inner) [] = e.2 :=
      inner_copy_eq e.2 (hinner e (by simp))
    have hstep :
        alSet e.1 (e.2.foldl (fun inner l => alSet l.1 l.2 inner) []) acc
          = acc ++ [e] := by
      rw [hic, alSet_of_get_none _ he]
    have hnd0 : e.1 ∉ alKeys t ∧ (alKeys t).Nodup := by
      have hnd1 : (e.1 :: alKeys t).Nodup := by
        simpa only [alKeys, List.map_cons] using hnd
      exact List.nodup_cons.mp hnd1
    have hnd' : (alKeys t).Nodup := hnd0.2
    have hfresh' : ∀ q ∈ t, alGet q.1 (acc ++ [e]) = none := by
      intro q hq
      have hne : e.1 ≠ q.1 := by
        have hmem : q.1 ∈ alKeys t := List.mem_map_of_mem Prod.fst hq
        intro hcontra; exact hnd0.1 (hcontra ▸ hmem)
      rw [alGet_append_none _ (hfresh q (List.mem_cons_of_mem _ hq))]
      simp [alGet, hne]
    calc (e :: t).foldl _ acc
        = t.foldl
            (fun acc e =>
              alSet e.1 (e.2.foldl (fun inner l => alSet l.1 l.2 inner) []) acc)
            (acc ++ [e]) := by
          simp [List.foldl_cons, hstep]
      _ = (acc ++ [e]) ++ t :=
          copyCart_aux t (acc ++ [e]) hfresh' hnd'
            (fun q hq => hinner q (List.mem_cons_of_mem _ hq))
      _ = acc ++ e :: t := by simp

theorem copyCart_eq_self {r : CartData} (h : CartWF r) : copyCart r = r := by
  have := copyCart_aux r [] (by intro e _; simp [alGet]) h.1 h.2
  simpa [copyCart] using this

/-! ## Cart-level lemmas -/

/-- The positivity invariant of the spec's data model: every stored line has a
strictly positive quantity. -/
def cartPos (c : CartData) : Prop :=
  ∀ pid sz v, cartGet c pid sz = some v → 0 < v

theorem cartPos_nil : cartPos [] := by
  intro pid sz v h
  simp [cartGet, alGet] at h

theorem cartGet_getD (c : CartData) (pid sz : String) :
    (alGet sz ((alGet pid c).getD [])).getD 0 = (cartGet c pid sz).getD 0 := by
  cases h : alGet pid c with
  | none => simp [cartGet, h, alGet]
  | some inner => simp [cartGet, h]

theorem cartGet_set_self (c : CartData) (pid sz : String) (v : Int)
    (inner : CartItem) :
    cartGet (alSet pid (alSet sz v inner) c) pid sz = some v := by
  simp [cartGet, alGet_alSet_self, alGet_alSet_self]

theorem cartPos_set (c : CartData) (pid sz : String) (v : Int)
    (hc : cartPos c) (hv : 0 < v) :
    cartPos (alSet pid (alSet sz v ((alGet pid c).getD [])) c) := by
  intro pid' sz' w hw
  by_cases hp : pid' = pid
  · subst hp
    simp only [cartGet, alGet_alSet_self] at hw
    by_cases hs : sz' = sz
    · subst hs
      simp only [alGet_alSet_self, Option.some.injEq] at hw
      omega
    · rw [alGet_alSet_ne _ _ (fun hh => hs hh.symm)] at hw
      cases hpc : alGet pid' c with
      | none => rw [hpc] at hw; simp [alGet] at hw
      | some inner =>
        rw [hpc] at hw
        simp only [Option.getD_some] at hw
        exact hc pid' sz' w (by simp [cartGet, hpc, hw])
  · have hg : cartGet (alSet pid (alSet sz v ((alGet pid c).getD [])) c) pid' sz'
        = cartGet c pid' sz' := by
      simp only [cartGet, alGet_alSet_ne _ _ (fun hh => hp hh.symm)]
    rw [hg] at hw
    exact hc pid' sz' w hw

theorem cartPos_setEmptyKey (c : CartData) (pid : String) (hc : cartPos c) :
    cartPos (alSet pid [] c) := by
  intro pid' sz v hv
  by_cases hp : pid' = pid
  · subst hp
    rw [cartGet, alGet_alSet_self] at hv
    simp [alGet] at hv
  · rw [cartGet, alGet_alSet_ne _ _ (fun hh => hp hh.symm)] at hv
    exact hc pid' sz v hv

theorem cartPos_deleteLine (c : CartData) (pid sz : String) (hc : cartPos c) :
    cartPos (deleteLine c pid sz) := by
  cases hpc : alGet pid c with
  | none =>
    intro pid' sz' v hv
    rw [deleteLine, hpc] at hv
    exact hc pid' sz' v hv
  | some inner =>
    by_cases he : (alErase sz inner).isEmpty = true
    · intro pid' sz' v hv
      simp only [deleteLine, hpc] at hv
      rw [if_pos he] at hv
      by_cases hp : pid' = pid
      · subst hp
        simp only [cartGet, alGet_alErase_self] at hv
        cases hv
      · have hg : cartGet (alErase pid c) pid' sz' = cartGet c pid' sz' := by
          simp only [cartGet, alGet_alErase_ne _ (Ne.symm hp)]
        rw [hg] at hv
        exact hc pid' sz' v hv
    · intro pid' sz' v hv
      simp only [deleteLine, hpc] at hv
      rw [if_neg he] at hv
      by_cases hp : pid' = pid
      · subst hp
        simp only [cartGet, alGet_alSet_self] at hv
        by_cases hs : sz' = sz
        · subst hs
          rw [alGet_alErase_self] at hv
          cases hv
        · rw [alGet_alErase_ne _ (fun hh => hs hh.symm)] at hv
          exact hc pid' sz' v (by simp [cartGet, hpc, hv])
      · have hg : cartGet (alSet pid (alErase sz inner) c) pid' sz'
            = cartGet c pid' sz' := by
          simp only [cartGet, alGet_alSet_ne _ _ (fun hh => hp hh.symm)]
        rw [hg] at hv
        exact hc pid' sz' v hv

theorem cartGet_deleteLine_self (c : CartData) (pid sz : String) :
    cartGet (deleteLine c pid sz) pid sz = none := by
  cases hpc : alGet pid c with
  | none => rw [deleteLine, hpc, cartGet, hpc]
  | some inner =>
    by_cases he : (alErase sz inner).isEmpty = true
    · simp only [deleteLine, hpc]
      rw [if_pos he]
      simp [cartGet, alGet_alErase_self]
    · simp only [deleteLine, hpc]
      rw [if_neg he]
      simp [cartGet, alGet_alSet_self, alGet_alErase_self]

theorem buildFromLinesPos_pos (items : List CartLine) :
    cartPos (buildFromLinesPos items) := by
  suffices h : ∀ (acc : CartData), cartPos acc →
      cartPos (items.foldl
        (fun acc it =>
          let acc1 := if (alGet it.productId acc).isSome then acc
                      else alSet it.productId [] acc
          if 0 < it.quantity then
            alSet it.productId
              (alSet it.size it.quantity ((alGet it.productId acc1).getD [])) acc1
          else acc1)
        acc) by
    exact h [] cartPos_nil
  induction items with
  | nil => intro acc hacc; simpa using hacc
  | cons it t ih =>
    intro acc hacc
    rw [List.foldl_cons]
    apply ih
    have hacc1 : cartPos (if (alGet it.productId acc).isSome then acc
        else alSet it.productId [] acc) := by
      by_cases hs : (alGet it.productId acc).isSome
      · simpa [hs] using hacc
      · simp only [hs, if_false]
        simp only [Bool.false_eq_true, if_false]
        exact cartPos_setEmptyKey acc it.productId hacc
    by_cases hq : 0 < it.quantity
    · simp only [hq, if_true]
      exact cartPos_set _ it.productId it.size it.quantity hacc1 hq
    · simpa [hq] using hacc1

theorem alGet_deleteLine_gone (c : CartData) (pid sz : String) (inner : CartItem)
    (hpc : alGet pid c = some inner) (he : (alErase sz inner).isEmpty = true) :
    alGet pid (deleteLine c pid sz) = none := by
  simp only [deleteLine, hpc]
  rw [if_pos he]
  exact alGet_alErase_self pid c

/-! ## Amount computation -/

/-- The spec-side formulation of the total: the sum over all lines of
`product.price * quantity`, a line whose product is unknown contributing zero. -/
def cartAmountSpec (products : List Product) (cart : CartData) : Int :=
  (cart.map (fun e =>
    match findProduct products e.1 with
    | some product => (e.2.map (fun l => product.price * l.2)).sum
    | none => 0)).sum

theorem inner_foldl_amount (p : Int) (l : CartItem) :
    ∀ acc : Int,
      l.foldl (fun t e => t + p * e.2) acc = acc + (l.map (fun e => p * e.2)).sum := by
  induction l with
  | nil => intro acc; simp
  | cons e t ih =>
    intro acc
    rw [List.foldl_cons, ih, List.map_cons, List.sum_cons]
    ring

theorem getCartAmount_foldl (products : List Product) :
    ∀ (cart : CartData) (acc : Int),
      cart.foldl
        (fun totalAmount e =>
          match findProduct products e.1 with
          | some product =>
            e.2.foldl (fun t l => t + product.price * l.2) totalAmount
          | none => totalAmount) acc
      = acc + cartAmountSpec products cart
  | [], acc => by simp [cartAmountSpec]
  | e :: t, acc => by
    rw [List.foldl_cons]
    cases hf : findProduct products e.1 with
    | none =>
      simp only [hf]
      rw [getCartAmount_foldl products t acc]
      simp [cartAmountSpec, hf]
    | some product =>
      simp only [hf]
      rw [getCartAmount_foldl products t _, inner_foldl_amount]
      simp only [cartAmountSpec, List.map_cons, List.sum_cons, hf]
      ring

/-! ## Branch equations for the operations -/

/-- The cart produced by the guest branch of `addCartItem`. -/
def addGuestCart (cart : CartData) (pid size : String) (q : Int) : CartData :=
  alSet pid
    (alSet size ((alGet size ((alGet pid cart).getD [])).getD 0 + q)
      ((alGet pid cart).getD []))
    cart

theorem addCartItem_guest_eq (products : List Product) (s : ShopState)
    (pid size : String) (q : Int) (server : AxiosResult AddResp) (P : Product)
    (hfind : findProduct products pid = some P)
    (hsize : size ∈ P.sizes)
    (hstock : ¬ (P.stock < q))
    (hauth : authRoute s = false) :
    addCartItem products s pid size q server
      = (saveCartToStore (addGuestCart s.storeCart pid size q) s,
         [Evt.toastSuccess "Added to cart"]) := by
  simp [addCartItem, hfind, hsize, hstock, hauth, getCartFromStore, addGuestCart]

theorem addCartItem_auth_success_eq (products : List Product) (s : ShopState)
    (pid size : String) (q : Int) (r : AddResp) (P : Product)
    (hfind : findProduct products pid = some P)
    (hsize : size ∈ P.sizes)
    (hstock : ¬ (P.stock < q))
    (hauth : authRoute s = true)
    (hsucc : r.success = true) :
    addCartItem products s pid size q (AxiosResult.resp r)
      = (saveCartToStore (copyCart r.cartData) s,
         [Evt.networkPost "/api/cart/add", Evt.toastSuccess "Added to cart"]) := by
  simp [addCartItem, hfind, hsize, hstock, hauth, hsucc]

theorem addCartItem_stock_eq (products : List Product) (s : ShopState)
    (pid size : String) (q : Int) (server : AxiosResult AddResp) (P : Product)
    (hfind : findProduct products pid = some P)
    (hsize : size ∈ P.sizes)
    (hstock : P.stock < q) :
    addCartItem products s pid size q server
      = (s, [Evt.toastError "Insufficient stock"]) := by
  simp [addCartItem, hfind, hsize, hstock]

/-! ## Claim theorems -/

/-- Claim C1: for every product `P` in the current product list and every size
`S` in `P.sizes`, `addCartItem(P._id, S, q)` with `q ≤ P.stock` succeeds
(toasts "Added to cart"), and the resulting cart's quantity for `(P._id, S)`
equals the previous quantity (0 if absent) plus `q`. In the authenticated
route this holds whenever the server meets the remote-cart contract, i.e.
returns success with the incremented cart. -/
theorem c1_addCartItem_success_increments
    (products : List Product) (s : ShopState) (P : Product) (size : String)
    (q : Int) (server : AxiosResult AddResp)
    (hfind : findProduct products P._id = some P)
    (hsize : size ∈ P.sizes)
    (hq : q ≤ P.stock)
    (hsync : s.storeCart = s.cartItem)
    (hserver : authRoute s = true →
      ∃ r, server = AxiosResult.resp r ∧ r.success = true ∧ CartWF r.cartData ∧
        cartGet r.cartData P._id size
          = some ((cartGet s.cartItem P._id size).getD 0 + q)) :
    Evt.toastSuccess "Added to cart" ∈ (addCartItem products s P._id size q server).2 ∧
    cartGet (addCartItem products s P._id size q server).1.cartItem P._id size
      = some ((cartGet s.cartItem P._id size).getD 0 + q) := by
  have hstock : ¬ (P.stock < q) := by omega
  by_cases hauth : authRoute s = true
  · obtain ⟨r, hr, hsucc, hwf, hget⟩ := hserver hauth
    subst hr
    rw [addCartItem_auth_success_eq products s P._id size q r P hfind hsize hstock hauth hsucc]
    refine ⟨by simp, ?_⟩
    simp only [saveCartToStore, copyCart_eq_self hwf]
    exact hget
  · have hauth' : authRoute s = false := by simpa using hauth
    rw [addCartItem_guest_eq products s P._id size q server P hfind hsize hstock hauth']
    refine ⟨by simp, ?_⟩
    simp only [saveCartToStore, addGuestCart]
    rw [cartGet_set_self, cartGet_getD, hsync]

/-- Claim C1 witness: a concrete guest-mode instance. -/
theorem c1_witness :
    Evt.toastSuccess "Added to cart" ∈
      (addCartItem
        [{ _id := "A", name := "a", price := 100, sizes := ["M"], stock := 5,
           date := 1, averageRating := 4 }]
        { storeCart := [], cartItem := [], token := none, csrfToken := none }
        "A" "M" 2 (AxiosResult.thrown "offline")).2 ∧
    cartGet
      (addCartItem
        [{ _id := "A", name := "a", price := 100, sizes := ["M"], stock := 5,
           date := 1, averageRating := 4 }]
        { storeCart := [], cartItem := [], token := none, csrfToken := none }
        "A" "M" 2 (AxiosResult.thrown "offline")).1.cartItem "A" "M"
      = some ((cartGet [] "A" "M").getD 0 + 2) :=
  c1_addCartItem_success_increments
    [{ _id := "A", name := "a", price := 100, sizes := ["M"], stock := 5,
       date := 1, averageRating := 4 }]
    { storeCart := [], cartItem := [], token := none, csrfToken := none }
    { _id := "A", name := "a", price := 100, sizes := ["M"], stock := 5,
      date := 1, averageRating := 4 }
    "M" 2 (AxiosResult.thrown "offline")
    (by decide) (by decide) (by decide) rfl (fun h => absurd h (by decide))

/-- Claim C2: for a catalog product and valid size, requesting `q > P.stock`
makes `addCartItem` fail with the "Insufficient stock" error, perform no
network call and no persistence write, and leave the state exactly unchanged. -/
theorem c2_addCartItem_insufficient_stock
    (products : List Product) (s : ShopState) (P : Product) (size : String)
    (q : Int) (server : AxiosResult AddResp)
    (hfind : findProduct products P._id = some P)
    (hsize : size ∈ P.sizes)
    (hq : P.stock < q) :
    addCartItem products s P._id size q server
      = (s, [Evt.toastError "Insufficient stock"]) :=
  addCartItem_stock_eq products s P._id size q server P hfind hsize hq

/-- Claim C2 witness: a concrete instance (stock 5, request 6). -/
theorem c2_witness :
    addCartItem
      [{ _id := "A", name := "a", price := 100, sizes := ["M"], stock := 5,
         date := 1, averageRating := 4 }]
      { storeCart := [], cartItem := [], token := none, csrfToken := none }
      "A" "M" 6 (AxiosResult.thrown "offline")
      = ({ storeCart := [], cartItem := [], token := none, csrfToken := none },
         [Evt.toastError "Insufficient stock"]) :=
  c2_addCartItem_insufficient_stock
    [{ _id := "A", name := "a", price := 100, sizes := ["M"], stock := 5,
       date := 1, averageRating := 4 }]
    { storeCart := [], cartItem := [], token := none, csrfToken := none }
    { _id := "A", name := "a", price := 100, sizes := ["M"], stock := 5,
      date := 1, averageRating := 4 }
    "M" 6 (AxiosResult.thrown "offline")
    (by decide) (by decide) (by decide)

/-! ## Concrete fixtures used by witnesses and counterexamples -/

/-- A demo catalog product (id "A", price 100, size "M", stock 5). -/
def demoProduct : Product :=
  { _id := "A", name := "a", price := 100, sizes := ["M"], stock := 5,
    date := 1, averageRating := 4 }

/-- A second demo catalog product (id "B", price 50, size "L", stock 5). -/
def demoProductB : Product :=
  { _id := "B", name := "b", price := 50, sizes := ["L"], stock := 5,
    date := 2, averageRating := 4 }

/-- A two-product demo catalog. -/
def demoCatalog : List Product := [demoProduct, demoProductB]

/-- A guest session with an empty cart. -/
def guestEmpty : ShopState :=
  { storeCart := [], cartItem := [], token := none, csrfToken := none }

/-! ## Branch equations for updateCartItem and removeCartItem -/

theorem updateCartItem_guest_del_eq (products : List Product) (s : ShopState)
    (pid size : String) (q : Int) (server : AxiosResult UpdateResp) (P : Product)
    (hfind : findProduct products pid = some P)
    (hsize : size ∈ P.sizes)
    (hq : q ≤ 0)
    (hauth : authRoute s = false) :
    updateCartItem products s pid size q server
      = (saveCartToStore (deleteLine s.storeCart pid size) s,
         [Evt.toastSuccess "Cart updated"]) := by
  have hval : ¬ (0 < q ∧ P.stock < q) := by omega
  simp [updateCartItem, hfind, hsize, hval, hauth, getCartFromStore, hq]

theorem updateCartItem_guest_set_eq (products : List Product) (s : ShopState)
    (pid size : String) (q : Int) (server : AxiosResult UpdateResp) (P : Product)
    (hfind : findProduct products pid = some P)
    (hsize : size ∈ P.sizes)
    (hq : 0 < q)
    (hstock : ¬ (P.stock < q))
    (hauth : authRoute s = false) :
    updateCartItem products s pid size q server
      = (saveCartToStore
           (alSet pid (alSet size q ((alGet pid s.storeCart).getD [])) s.storeCart) s,
         [Evt.toastSuccess "Cart updated"]) := by
  have hval : ¬ (0 < q ∧ P.stock < q) := by omega
  have hq' : ¬ (q ≤ 0) := by omega
  simp [updateCartItem, hfind, hsize, hval, hauth, getCartFromStore, hq']

theorem removeCartItem_guest_present_eq (products : List Product) (s : ShopState)
    (pid size : String) (server : AxiosResult RemoveResp) (P : Product)
    (inner : CartItem)
    (hfind : findProduct products pid = some P)
    (hsize : size ∈ P.sizes)
    (hauth : authRoute s = false)
    (hpid : alGet pid s.storeCart = some inner) :
    removeCartItem products s pid size server
      = (saveCartToStore (deleteLine s.storeCart pid size) s,
         [Evt.toastSuccess "Removed from cart"]) := by
  simp [removeCartItem, hfind, hsize, hauth, getCartFromStore, hpid]

theorem removeCartItem_guest_absent_eq (products : List Product) (s : ShopState)
    (pid size : String) (server : AxiosResult RemoveResp) (P : Product)
    (hfind : findProduct products pid = some P)
    (hsize : size ∈ P.sizes)
    (hauth : authRoute s = false)
    (hpid : alGet pid s.storeCart = none) :
    removeCartItem products s pid size server
      = (s, [Evt.toastError "Item not found in cart"]) := by
  simp [removeCartItem, hfind, hsize, hauth, getCartFromStore, hpid]

theorem saveCartToStore_self (s : ShopState) (h : s.storeCart = s.cartItem) :
    saveCartToStore s.storeCart s = s := by
  cases s with
  | mk sc ci tk ck =>
    simp only [saveCartToStore]
    simp only at h
    rw [h]

/-- Claim C3 counterexample: in a guest session whose cart does not contain
product "A", `updateCartItem("A", "M", 0)` reports success while
`removeCartItem("A", "M")` reports the "Item not found in cart" error, so the
two operations do not produce the same success/failure outcome when the
product entry is absent. -/
theorem c3_counterexample :
    (updateCartItem demoCatalog guestEmpty "A" "M" 0 (AxiosResult.thrown "offline")).2
        = [Evt.toastSuccess "Cart updated"] ∧
    (removeCartItem demoCatalog guestEmpty "A" "M" (AxiosResult.thrown "offline")).2
        = [Evt.toastError "Item not found in cart"] := by
  decide

/-- Claim C3 (amended): in guest mode, `updateCartItem(id, size, 0)` and
`removeCartItem(id, size)` always produce the same resulting state — both
eliminate the `(id, size)` line, and the whole product entry when that size
was its last one — and both report success whenever the product entry is
present; when the product entry is absent both leave the state unchanged, but
`updateCartItem` reports success while `removeCartItem` reports the
"Item not found in cart" error. -/
theorem c3_update_zero_vs_remove
    (products : List Product) (s : ShopState) (P : Product) (pid size : String)
    (uresp : AxiosResult UpdateResp) (rresp : AxiosResult RemoveResp)
    (hfind : findProduct products pid = some P)
    (hsize : size ∈ P.sizes)
    (hauth : authRoute s = false)
    (hsync : s.storeCart = s.cartItem) :
    (updateCartItem products s pid size 0 uresp).1
        = (removeCartItem products s pid size rresp).1 ∧
    cartGet (updateCartItem products s pid size 0 uresp).1.cartItem pid size = none ∧
    (∀ inner, alGet pid s.storeCart = some inner →
        (alErase size inner).isEmpty = true →
        alGet pid (updateCartItem products s pid size 0 uresp).1.cartItem = none) ∧
    ((alGet pid s.storeCart).isSome = true →
        (updateCartItem products s pid size 0 uresp).2
            = [Evt.toastSuccess "Cart updated"] ∧
        (removeCartItem products s pid size rresp).2
            = [Evt.toastSuccess "Removed from cart"]) ∧
    ((alGet pid s.storeCart).isSome = false →
        (updateCartItem products s pid size 0 uresp).2
            = [Evt.toastSuccess "Cart updated"] ∧
        (removeCartItem products s pid size rresp).2
            = [Evt.toastError "Item not found in cart"]) := by
  rw [updateCartItem_guest_del_eq products s pid size 0 uresp P hfind hsize
    (by omega) hauth]
  cases hpid : alGet pid s.storeCart with
  | some inner =>
    rw [removeCartItem_guest_present_eq products s pid size rresp P inner
      hfind hsize hauth hpid]
    refine ⟨rfl, ?_, ?_, fun _ => ⟨rfl, rfl⟩, fun hco => by simp [hpid] at hco⟩
    · exact cartGet_deleteLine_self s.storeCart pid size
    · intro inner' hpid' he'
      have hinner : inner = inner' := Option.some.inj hpid'
      subst hinner
      simpa [saveCartToStore] using
        alGet_deleteLine_gone s.storeCart pid size inner hpid he'
  | none =>
    rw [removeCartItem_guest_absent_eq products s pid size rresp P
      hfind hsize hauth hpid]
    have hdel : deleteLine s.storeCart pid size = s.storeCart := by
      rw [deleteLine, hpid]
    rw [hdel, saveCartToStore_self s hsync]
    refine ⟨rfl, ?_, ?_, fun hco => by simp [hpid] at hco, fun _ => ⟨rfl, rfl⟩⟩
    · rw [← hsync, cartGet, hpid]
    · intro inner' hpid' _
      exact Option.noConfusion hpid'

/-- Claim C3 witness: a concrete guest cart containing the line, on which both
operations agree and both succeed. -/
theorem c3_witness :
    (updateCartItem demoCatalog
        { storeCart := [("A", [("M", 2)])], cartItem := [("A", [("M", 2)])],
          token := none, csrfToken := none }
        "A" "M" 0 (AxiosResult.thrown "offline")).1
      = (removeCartItem demoCatalog
          { storeCart := [("A", [("M", 2)])], cartItem := [("A", [("M", 2)])],
            token := none, csrfToken := none }
          "A" "M" (AxiosResult.thrown "offline")).1 ∧
    cartGet (updateCartItem demoCatalog
        { storeCart := [("A", [("M", 2)])], cartItem := [("A", [("M", 2)])],
          token := none, csrfToken := none }
        "A" "M" 0 (AxiosResult.thrown "offline")).1.cartItem "A" "M" = none := by
  have h := c3_update_zero_vs_remove demoCatalog
    { storeCart := [("A", [("M", 2)])], cartItem := [("A", [("M", 2)])],
      token := none, csrfToken := none }
    demoProduct "A" "M" (AxiosResult.thrown "offline") (AxiosResult.thrown "offline")
    (by decide) (by decide) (by decide) rfl
  exact ⟨h.1, h.2.1⟩

/-! ## Branch equations for mergeCart -/

theorem mergeCart_thrown_eq (s : ShopState) (m : String)
    (fresp : AxiosResult FetchResp)
    (hauth : authRoute s = true)
    (hne : s.storeCart ≠ []) :
    mergeCart s (AxiosResult.thrown m) fresp
      = (s, [Evt.networkPost "/api/cart/merge", Evt.toastError m]) := by
  have hauth' := hauth
  rw [authRoute, Bool.and_eq_true] at hauth'
  obtain ⟨ht, hc⟩ := hauth'
  simp [mergeCart, ht, hc, getCartFromStore, alKeys, hne]

theorem mergeCart_fail_resp_eq (s : ShopState) (r : MergeResp)
    (fresp : AxiosResult FetchResp)
    (hauth : authRoute s = true)
    (hne : s.storeCart ≠ [])
    (hfail : r.success = false) :
    mergeCart s (AxiosResult.resp r) fresp
      = (s, [Evt.networkPost "/api/cart/merge",
             Evt.toastError (r.message.getD "Failed to merge cart")]) := by
  have hauth' := hauth
  rw [authRoute, Bool.and_eq_true] at hauth'
  obtain ⟨ht, hc⟩ := hauth'
  simp [mergeCart, ht, hc, getCartFromStore, alKeys, hne, hfail]

/-- Claim C4: when the merge call fails — the request throws (network error)
or the server reports failure — the local cart store and the whole state are
left intact (the result state is exactly the input state, so the merge can be
retried with the same local cart), and an error toast is surfaced. -/
theorem c4_mergeCart_failure_keeps_local
    (s : ShopState) (mresp : AxiosResult MergeResp) (fresp : AxiosResult FetchResp)
    (hauth : authRoute s = true)
    (hne : s.storeCart ≠ [])
    (hfail : (∃ m, mresp = AxiosResult.thrown m) ∨
             ∃ r, mresp = AxiosResult.resp r ∧ r.success = false) :
    (mergeCart s mresp fresp).1 = s ∧
    ∃ m, Evt.toastError m ∈ (mergeCart s mresp fresp).2 := by
  rcases hfail with ⟨m, rfl⟩ | ⟨r, rfl, hfs⟩
  · rw [mergeCart_thrown_eq s m fresp hauth hne]
    exact ⟨rfl, m, by simp⟩
  · rw [mergeCart_fail_resp_eq s r fresp hauth hne hfs]
    exact ⟨rfl, r.message.getD "Failed to merge cart", by simp⟩

/-- Claim C4 witness: a concrete authenticated state with a non-empty local
cart and a server-reported merge failure. -/
theorem c4_witness :
    (mergeCart
      { storeCart := [("A", [("M", 2)])], cartItem := [("A", [("M", 2)])],
        token := some "t", csrfToken := some "c" }
      (AxiosResult.resp { success := false, message := some "merge failed" })
      (AxiosResult.thrown "offline")).1
      = { storeCart := [("A", [("M", 2)])], cartItem := [("A", [("M", 2)])],
          token := some "t", csrfToken := some "c" } ∧
    ∃ m, Evt.toastError m ∈
      (mergeCart
        { storeCart := [("A", [("M", 2)])], cartItem := [("A", [("M", 2)])],
          token := some "t", csrfToken := some "c" }
        (AxiosResult.resp { success := false, message := some "merge failed" })
        (AxiosResult.thrown "offline")).2 :=
  c4_mergeCart_failure_keeps_local
    { storeCart := [("A", [("M", 2)])], cartItem := [("A", [("M", 2)])],
      token := some "t", csrfToken := some "c" }
    (AxiosResult.resp { success := false, message := some "merge failed" })
    (AxiosResult.thrown "offline")
    (by decide) (by decide)
    (Or.inr ⟨{ success := false, message := some "merge failed" }, rfl, rfl⟩)

/-- Claim C5: calling `mergeCart` with an empty local cart is a complete
no-op: no network call is issued, no event is emitted, and the state is
unchanged — so repeating the call has no effect either. -/
theorem c5_mergeCart_empty_noop
    (s : ShopState) (mresp : AxiosResult MergeResp) (fresp : AxiosResult FetchResp)
    (hempty : s.storeCart = []) :
    mergeCart s mresp fresp = (s, []) ∧
    mergeCart (mergeCart s mresp fresp).1 mresp fresp = (s, []) := by
  have h1 : mergeCart s mresp fresp = (s, []) := by
    by_cases hg : (!(strTruthy s.token) || !(strTruthy s.csrfToken)) = true
    · simp [mergeCart, hg]
    · simp [mergeCart, hg, getCartFromStore, hempty, alKeys]
  refine ⟨h1, ?_⟩
  rw [h1]
  exact h1

/-- Claim C5 witness: a concrete authenticated state with an empty local cart. -/
theorem c5_witness :
    mergeCart
      { storeCart := [], cartItem := [], token := some "t", csrfToken := some "c" }
      (AxiosResult.resp { success := true, message := none })
      (AxiosResult.thrown "offline")
      = ({ storeCart := [], cartItem := [], token := some "t", csrfToken := some "c" },
         []) :=
  (c5_mergeCart_empty_noop
    { storeCart := [], cartItem := [], token := some "t", csrfToken := some "c" }
    (AxiosResult.resp { success := true, message := none })
    (AxiosResult.thrown "offline") rfl).1

/-! ## Validation-failure equations -/

theorem addCartItem_notfound_eq (products : List Product) (s : ShopState)
    (pid size : String) (q : Int) (server : AxiosResult AddResp)
    (hf : findProduct products pid = none) :
    addCartItem products s pid size q server
      = (s, [Evt.toastError "Product not found"]) := by
  simp [addCartItem, hf]

theorem addCartItem_badsize_eq (products : List Product) (s : ShopState)
    (pid size : String) (q : Int) (server : AxiosResult AddResp) (P : Product)
    (hf : findProduct products pid = some P) (hsz : size ∉ P.sizes) :
    addCartItem products s pid size q server
      = (s, [Evt.toastError "Invalid size"]) := by
  simp [addCartItem, hf, hsz]

theorem updateCartItem_notfound_eq (products : List Product) (s : ShopState)
    (pid size : String) (q : Int) (server : AxiosResult UpdateResp)
    (hf : findProduct products pid = none) :
    updateCartItem products s pid size q server
      = (s, [Evt.toastError "Product not found"]) := by
  simp [updateCartItem, hf]

theorem updateCartItem_badsize_eq (products : List Product) (s : ShopState)
    (pid size : String) (q : Int) (server : AxiosResult UpdateResp) (P : Product)
    (hf : findProduct products pid = some P) (hsz : size ∉ P.sizes) :
    updateCartItem products s pid size q server
      = (s, [Evt.toastError "Invalid size"]) := by
  simp [updateCartItem, hf, hsz]

theorem updateCartItem_stock_eq (products : List Product) (s : ShopState)
    (pid size : String) (q : Int) (server : AxiosResult UpdateResp) (P : Product)
    (hf : findProduct products pid = some P) (hsz : size ∈ P.sizes)
    (hstock : 0 < q ∧ P.stock < q) :
    updateCartItem products s pid size q server
      = (s, [Evt.toastError "Insufficient stock"]) := by
  simp [updateCartItem, hf, hsz, hstock]

theorem removeCartItem_notfound_eq (products : List Product) (s : ShopState)
    (pid size : String) (server : AxiosResult RemoveResp)
    (hf : findProduct products pid = none) :
    removeCartItem products s pid size server
      = (s, [Evt.toastError "Product not found"]) := by
  simp [removeCartItem, hf]

theorem removeCartItem_badsize_eq (products : List Product) (s : ShopState)
    (pid size : String) (server : AxiosResult RemoveResp) (P : Product)
    (hf : findProduct products pid = some P) (hsz : size ∉ P.sizes) :
    removeCartItem products s pid size server
      = (s, [Evt.toastError "Invalid size"]) := by
  simp [removeCartItem, hf, hsz]

/-- Claim C6 counterexample: in a guest session, `addCartItem("A", "M", 0)`
passes the stock check (`stock < 0` is false) and stores a line with quantity
exactly 0 — violating the invariant that every stored line is strictly
positive. -/
theorem c6_counterexample :
    cartGet (addCartItem demoCatalog guestEmpty "A" "M" 0
        (AxiosResult.thrown "offline")).1.cartItem "A" "M" = some 0 ∧
    ¬ cartPos (addCartItem demoCatalog guestEmpty "A" "M" 0
        (AxiosResult.thrown "offline")).1.cartItem := by
  constructor
  · decide
  · intro h
    have h0 := h "A" "M" 0 (by decide)
    omega

/-- Claim C6 (amended): in guest mode, the cart mutations preserve the
strict-positivity invariant provided `addCartItem` is called with a quantity
of at least 1 (as all in-repo callers do): `updateCartItem` and
`removeCartItem` preserve it for every quantity, and `addCartItem` preserves
it whenever `1 ≤ q`; a guest `addCartItem` with `q ≤ 0` can store a
non-positive line (and the authenticated branches adopt server data verbatim,
see the C10 theorem). -/
theorem c6_guest_mutations_preserve_positivity
    (products : List Product) (s : ShopState) (pid size : String) (q : Int)
    (ra : AxiosResult AddResp) (ru : AxiosResult UpdateResp)
    (rr : AxiosResult RemoveResp)
    (hauth : authRoute s = false)
    (hsync : s.storeCart = s.cartItem)
    (hpos : cartPos s.cartItem) :
    (1 ≤ q → cartPos (addCartItem products s pid size q ra).1.cartItem) ∧
    cartPos (updateCartItem products s pid size q ru).1.cartItem ∧
    cartPos (removeCartItem products s pid size rr).1.cartItem := by
  have hposStore : cartPos s.storeCart := by rw [hsync]; exact hpos
  refine ⟨?_, ?_, ?_⟩
  · intro hq
    cases hf : findProduct products pid with
    | none =>
      rw [addCartItem_notfound_eq products s pid size q ra hf]
      exact hpos
    | some P =>
      by_cases hsz : size ∈ P.sizes
      · by_cases hstock : P.stock < q
        · rw [addCartItem_stock_eq products s pid size q ra P hf hsz hstock]
          exact hpos
        · rw [addCartItem_guest_eq products s pid size q ra P hf hsz hstock hauth]
          simp only [saveCartToStore, addGuestCart]
          have hv : 0 < (alGet size ((alGet pid s.storeCart).getD [])).getD 0 + q := by
            rw [cartGet_getD]
            cases hcg : cartGet s.storeCart pid size with
            | none => simp; omega
            | some w =>
              have hw := hposStore pid size w hcg
              simp
              omega
          exact cartPos_set s.storeCart pid size _ hposStore hv
      · rw [addCartItem_badsize_eq products s pid size q ra P hf hsz]
        exact hpos
  · cases hf : findProduct products pid with
    | none =>
      rw [updateCartItem_notfound_eq products s pid size q ru hf]
      exact hpos
    | some P =>
      by_cases hsz : size ∈ P.sizes
      · by_cases hstock : 0 < q ∧ P.stock < q
        · rw [updateCartItem_stock_eq products s pid size q ru P hf hsz hstock]
          exact hpos
        · by_cases hq : q ≤ 0
          · rw [updateCartItem_guest_del_eq products s pid size q ru P hf hsz hq hauth]
            simp only [saveCartToStore]
            exact cartPos_deleteLine s.storeCart pid size hposStore
          · have hq' : 0 < q := by omega
            have hstock' : ¬ (P.stock < q) := by
              intro hcon
              exact hstock ⟨hq', hcon⟩
            rw [updateCartItem_guest_set_eq products s pid size q ru P hf hsz hq'
              hstock' hauth]
            simp only [saveCartToStore]
            exact cartPos_set s.storeCart pid size q hposStore hq'
      · rw [updateCartItem_badsize_eq products s pid size q ru P hf hsz]
        exact hpos
  · cases hf : findProduct products pid with
    | none =>
      rw [removeCartItem_notfound_eq products s pid size rr hf]
      exact hpos
    | some P =>
      by_cases hsz : size ∈ P.sizes
      · cases hpid : alGet pid s.storeCart with
        | some inner =>
          rw [removeCartItem_guest_present_eq products s pid size rr P inner
            hf hsz hauth hpid]
          simp only [saveCartToStore]
          exact cartPos_deleteLine s.storeCart pid size hposStore
        | none =>
          rw [removeCartItem_guest_absent_eq products s pid size rr P hf hsz
            hauth hpid]
          exact hpos
      · rw [removeCartItem_badsize_eq products s pid size rr P hf hsz]
        exact hpos

/-- Claim C6 witness: the empty guest cart (trivially positive) stays positive
under a concrete add of quantity 2. -/
theorem c6_witness :
    cartPos (addCartItem demoCatalog guestEmpty "A" "M" 2
        (AxiosResult.thrown "offline")).1.cartItem :=
  ((c6_guest_mutations_preserve_positivity demoCatalog guestEmpty "A" "M" 2
    (AxiosResult.thrown "offline") (AxiosResult.thrown "offline")
    (AxiosResult.thrown "offline") (by decide) rfl
    (by intro pid sz v h; simp [cartGet, alGet] at h)).1) (by decide)

/-- Claim C7: `getCartAmount` equals the sum over all cart lines of
`product.price * quantity`, where a line whose product is not in the catalog
contributes zero; on the concrete cart `[A: [M: 2], B: [L: 1]]` with
`price A = 100`, `price B = 50` it yields 250, after removing B it yields 200,
and a line with an unknown product id contributes nothing. -/
theorem c7_getCartAmount_spec :
    (∀ (products : List Product) (cart : CartData),
        getCartAmount products cart = cartAmountSpec products cart) ∧
    getCartAmount demoCatalog [("A", [("M", 2)]), ("B", [("L", 1)])] = 250 ∧
    getCartAmount demoCatalog
      (removeCartItem demoCatalog
        { storeCart := [("A", [("M", 2)]), ("B", [("L", 1)])],
          cartItem := [("A", [("M", 2)]), ("B", [("L", 1)])],
          token := none, csrfToken := none }
        "B" "L" (AxiosResult.thrown "offline")).1.cartItem = 200 ∧
    getCartAmount demoCatalog [("ZZZ", [("M", 7)]), ("A", [("M", 2)])] = 200 := by
  refine ⟨?_, by decide, by decide, by decide⟩
  intro products cart
  show cart.foldl _ 0 = cartAmountSpec products cart
  rw [getCartAmount_foldl]
  omega

/-- An authenticated-looking state whose CSRF token is missing. -/
def authMissingCsrf : ShopState :=
  { storeCart := [("A", [("M", 2)])], cartItem := [("A", [("M", 2)])],
    token := some "t", csrfToken := none }

/-- Claim C8 counterexample: with the credential present but the CSRF token
absent, `getCartData` and `mergeCart` return silently — no network call, but
also no error of any kind (the claim requires an error to be reported) — and
`addCartItem` falls through to the guest branch, reporting success, not an
error. -/
theorem c8_counterexample :
    getCartData authMissingCsrf (AxiosResult.thrown "offline")
      = (authMissingCsrf, []) ∧
    mergeCart authMissingCsrf (AxiosResult.thrown "offline")
      (AxiosResult.thrown "offline") = (authMissingCsrf, []) ∧
    (addCartItem demoCatalog authMissingCsrf "A" "M" 1
      (AxiosResult.thrown "offline")).2 = [Evt.toastSuccess "Added to cart"] := by
  decide

/-- Claim C8 (amended): whenever the credential or the CSRF token is absent,
no remote cart operation issues a network call (so the remote cart is never
mutated); however no error is reported: `getCartData` and `mergeCart` return
silently with the state unchanged and no event at all, while `addCartItem`,
`updateCartItem` and `removeCartItem` fall back to the guest-local branch
(emitting only toasts, no requests). -/
theorem c8_missing_token_no_network
    (products : List Product) (s : ShopState) (pid size : String) (q : Int)
    (ra : AxiosResult AddResp) (ru : AxiosResult UpdateResp)
    (rr : AxiosResult RemoveResp) (mresp : AxiosResult MergeResp)
    (fresp : AxiosResult FetchResp)
    (hmiss : authRoute s = false) :
    getCartData s fresp = (s, []) ∧
    mergeCart s mresp fresp = (s, []) ∧
    (∀ e ∈ (addCartItem products s pid size q ra).2, e.isNet = false) ∧
    (∀ e ∈ (updateCartItem products s pid size q ru).2, e.isNet = false) ∧
    (∀ e ∈ (removeCartItem products s pid size rr).2, e.isNet = false) := by
  have hg : (!(strTruthy s.token) || !(strTruthy s.csrfToken)) = true := by
    rw [authRoute] at hmiss
    cases ht : strTruthy s.token <;> cases hc : strTruthy s.csrfToken <;>
      simp_all
  refine ⟨by simp [getCartData, hg], by simp [mergeCart, hg], ?_, ?_, ?_⟩
  · cases hf : findProduct products pid with
    | none =>
      rw [addCartItem_notfound_eq products s pid size q ra hf]
      intro e he; simp at he; subst he; rfl
    | some P =>
      by_cases hsz : size ∈ P.sizes
      · by_cases hstock : P.stock < q
        · rw [addCartItem_stock_eq products s pid size q ra P hf hsz hstock]
          intro e he; simp at he; subst he; rfl
        · rw [addCartItem_guest_eq products s pid size q ra P hf hsz hstock hmiss]
          intro e he; simp at he; subst he; rfl
      · rw [addCartItem_badsize_eq products s pid size q ra P hf hsz]
        intro e he; simp at he; subst he; rfl
  · cases hf : findProduct products pid with
    | none =>
      rw [updateCartItem_notfound_eq products s pid size q ru hf]
      intro e he; simp at he; subst he; rfl
    | some P =>
      by_cases hsz : size ∈ P.sizes
      · by_cases hstock : 0 < q ∧ P.stock < q
        · rw [updateCartItem_stock_eq products s pid size q ru P hf hsz hstock]
          intro e he; simp at he; subst he; rfl
        · by_cases hq : q ≤ 0
          · rw [updateCartItem_guest_del_eq products s pid size q ru P hf hsz hq hmiss]
            intro e he; simp at he; subst he; rfl
          · have hq' : 0 < q := by omega
            have hstock' : ¬ (P.stock < q) := fun hcon => hstock ⟨hq', hcon⟩
            rw [updateCartItem_guest_set_eq products s pid size q ru P hf hsz hq'
              hstock' hmiss]
            intro e he; simp at he; subst he; rfl
      · rw [updateCartItem_badsize_eq products s pid size q ru P hf hsz]
        intro e he; simp at he; subst he; rfl
  · cases hf : findProduct products pid with
    | none =>
      rw [removeCartItem_notfound_eq products s pid size rr hf]
      intro e he; simp at he; subst he; rfl
    | some P =>
      by_cases hsz : size ∈ P.sizes
      · cases hpid : alGet pid s.storeCart with
        | some inner =>
          rw [removeCartItem_guest_present_eq products s pid size rr P inner
            hf hsz hmiss hpid]
          intro e he; simp at he; subst he; rfl
        | none =>
          rw [removeCartItem_guest_absent_eq products s pid size rr P hf hsz
            hmiss hpid]
          intro e he; simp at he; subst he; rfl
      · rw [removeCartItem_badsize_eq products s pid size rr P hf hsz]
        intro e he; simp at he; subst he; rfl

/-- Claim C8 witness: the amended statement at a concrete state missing only
the CSRF token. -/
theorem c8_witness :
    getCartData authMissingCsrf (AxiosResult.thrown "offline")
      = (authMissingCsrf, []) ∧
    mergeCart authMissingCsrf (AxiosResult.thrown "offline")
      (AxiosResult.thrown "offline") = (authMissingCsrf, []) ∧
    (∀ e ∈ (addCartItem demoCatalog authMissingCsrf "A" "M" 1
        (AxiosResult.thrown "offline")).2, e.isNet = false) ∧
    (∀ e ∈ (updateCartItem demoCatalog authMissingCsrf "A" "M" 1
        (AxiosResult.thrown "offline")).2, e.isNet = false) ∧
    (∀ e ∈ (removeCartItem demoCatalog authMissingCsrf "A" "M"
        (AxiosResult.thrown "offline")).2, e.isNet = false) :=
  c8_missing_token_no_network demoCatalog authMissingCsrf "A" "M" 1
    (AxiosResult.thrown "offline") (AxiosResult.thrown "offline")
    (AxiosResult.thrown "offline") (AxiosResult.thrown "offline")
    (AxiosResult.thrown "offline") (by decide)

/-! ## Catalog sorting (Collection.tsx) -/

theorem sortProducts_lowhigh (l : List Product) :
    sortProducts "low-high" l = l.mergeSort (fun a b => a.price ≤ b.price) := rfl

theorem sortProducts_highlow (l : List Product) :
    sortProducts "high-low" l = l.mergeSort (fun a b => b.price ≤ a.price) := rfl

theorem sortProducts_newest (l : List Product) :
    sortProducts "newest" l = l.mergeSort (fun a b => b.date ≤ a.date) := rfl

theorem sortProducts_relevant (l : List Product) :
    sortProducts "relevant" l
      = l.mergeSort (fun a b => b.averageRating ≤ a.averageRating) := rfl

/-- A product tying on date with `demoProductD` but with the later name. -/
def demoProductC : Product :=
  { _id := "C", name := "b", price := 10, sizes := ["M"], stock := 1,
    date := 5, averageRating := 1 }

/-- A product tying on date with `demoProductC` but with the earlier name. -/
def demoProductD : Product :=
  { _id := "D", name := "a", price := 20, sizes := ["M"], stock := 1,
    date := 5, averageRating := 2 }

/-- Claim C9 counterexample: the sort is stable with no tiebreakers. Products
"A" and "B" tie on rating while "B" is more recent, yet the relevance sort
keeps whichever input order it is given (the claim requires the newer one
first); products "C" and "D" tie on date with different names, yet the newest
sort keeps either input order (so no name tiebreaker fixes their relative
order). -/
theorem c9_counterexample :
    demoProduct.averageRating = demoProductB.averageRating ∧
    demoProduct.date < demoProductB.date ∧
    sortProducts "relevant" [demoProduct, demoProductB]
      = [demoProduct, demoProductB] ∧
    sortProducts "relevant" [demoProductB, demoProduct]
      = [demoProductB, demoProduct] ∧
    demoProductC.date = demoProductD.date ∧
    demoProductC.name ≠ demoProductD.name ∧
    sortProducts "newest" [demoProductC, demoProductD]
      = [demoProductC, demoProductD] ∧
    sortProducts "newest" [demoProductD, demoProductC]
      = [demoProductD, demoProductC] := by
  refine ⟨by decide, by decide, ?_, ?_, by decide, by decide, ?_, ?_⟩ <;>
    simp [sortProducts, List.mergeSort, demoProduct, demoProductB,
      demoProductC, demoProductD]

/-- Claim C9 (amended): price ascending and price descending sort as claimed;
relevance sorts by average rating descending only and newest by date
descending only — in both, tied products keep their original input order
(stable sort), with no recency or name tiebreaker. Every sort returns a
permutation of its input, pairwise ordered by its key, and any tied pair
appearing in input order reappears in that order. -/
theorem c9_sort_orders (l : List Product) (a b : Product) :
    (sortProducts "low-high" l).Perm l ∧
    List.Pairwise (fun x y => x.price ≤ y.price) (sortProducts "low-high" l) ∧
    (sortProducts "high-low" l).Perm l ∧
    List.Pairwise (fun x y => y.price ≤ x.price) (sortProducts "high-low" l) ∧
    (sortProducts "newest" l).Perm l ∧
    List.Pairwise (fun x y => y.date ≤ x.date) (sortProducts "newest" l) ∧
    (sortProducts "relevant" l).Perm l ∧
    List.Pairwise (fun x y => y.averageRating ≤ x.averageRating)
      (sortProducts "relevant" l) ∧
    (a.averageRating = b.averageRating → [a, b].Sublist l →
      [a, b].Sublist (sortProducts "relevant" l)) ∧
    (a.date = b.date → [a, b].Sublist l →
      [a, b].Sublist (sortProducts "newest" l)) := by
  have tpr : ∀ x y z : Product, decide (x.price ≤ y.price) = true →
      decide (y.price ≤ z.price) = true → decide (x.price ≤ z.price) = true := by
    intro x y z h1 h2
    simp only [decide_eq_true_eq] at h1 h2 ⊢
    omega
  have opr : ∀ x y : Product,
      (decide (x.price ≤ y.price) || decide (y.price ≤ x.price)) = true := by
    intro x y
    simp only [Bool.or_eq_true, decide_eq_true_eq]
    omega
  have tprd : ∀ x y z : Product, decide (y.price ≤ x.price) = true →
      decide (z.price ≤ y.price) = true → decide (z.price ≤ x.price) = true := by
    intro x y z h1 h2
    simp only [decide_eq_true_eq] at h1 h2 ⊢
    omega
  have oprd : ∀ x y : Product,
      (decide (y.price ≤ x.price) || decide (x.price ≤ y.price)) = true := by
    intro x y
    simp only [Bool.or_eq_true, decide_eq_true_eq]
    omega
  have tdt : ∀ x y z : Product, decide (y.date ≤ x.date) = true →
      decide (z.date ≤ y.date) = true → decide (z.date ≤ x.date) = true := by
    intro x y z h1 h2
    simp only [decide_eq_true_eq] at h1 h2 ⊢
    omega
  have odt : ∀ x y : Product,
      (decide (y.date ≤ x.date) || decide (x.date ≤ y.date)) = true := by
    intro x y
    simp only [Bool.or_eq_true, decide_eq_true_eq]
    omega
  have trt : ∀ x y z : Product, decide (y.averageRating ≤ x.averageRating) = true →
      decide (z.averageRating ≤ y.averageRating) = true →
      decide (z.averageRating ≤ x.averageRating) = true := by
    intro x y z h1 h2
    simp only [decide_eq_true_eq] at h1 h2 ⊢
    omega
  have ort : ∀ x y : Product,
      (decide (y.averageRating ≤ x.averageRating)
        || decide (x.averageRating ≤ y.averageRating)) = true := by
    intro x y
    simp only [Bool.or_eq_true, decide_eq_true_eq]
    omega
  refine ⟨?_, ?_, ?_, ?_, ?_, ?_, ?_, ?_, ?_, ?_⟩
  · rw [sortProducts_lowhigh]; exact List.mergeSort_perm l _
  · rw [sortProducts_lowhigh]
    exact (List.sorted_mergeSort tpr opr l).imp (fun h => by simpa using h)
  · rw [sortProducts_highlow]; exact List.mergeSort_perm l _
  · rw [sortProducts_highlow]
    exact (List.sorted_mergeSort tprd oprd l).imp (fun h => by simpa using h)
  · rw [sortProducts_newest]; exact List.mergeSort_perm l _
  · rw [sortProducts_newest]
    exact (List.sorted_mergeSort tdt odt l).imp (fun h => by simpa using h)
  · rw [sortProducts_relevant]; exact List.mergeSort_perm l _
  · rw [sortProducts_relevant]
    exact (List.sorted_mergeSort trt ort l).imp (fun h => by simpa using h)
  · intro hr hsub
    rw [sortProducts_relevant]
    exact List.pair_sublist_mergeSort trt ort (by simp [hr]) hsub
  · intro hd hsub
    rw [sortProducts_newest]
    exact List.pair_sublist_mergeSort tdt odt (by simp [hd]) hsub

/-- Claim C9 witness: the amended statement at a concrete tied pair. -/
theorem c9_witness :
    (sortProducts "low-high" [demoProductC, demoProductD]).Perm
        [demoProductC, demoProductD] ∧
    [demoProductC, demoProductD].Sublist
        (sortProducts "newest" [demoProductC, demoProductD]) := by
  have h := c9_sort_orders [demoProductC, demoProductD] demoProductC demoProductD
  exact ⟨h.1, h.2.2.2.2.2.2.2.2.2 (by decide) (List.Sublist.refl _)⟩

/-! ## Authenticated response adoption -/

theorem updateCartItem_auth_obj_eq (products : List Product) (s : ShopState)
    (pid size : String) (q : Int) (r : UpdateResp) (c : CartData) (P : Product)
    (hf : findProduct products pid = some P)
    (hsz : size ∈ P.sizes)
    (hval : ¬ (0 < q ∧ P.stock < q))
    (hauth : authRoute s = true)
    (hsucc : r.success = true)
    (hobj : r.cartData = RespCartData.obj c) :
    updateCartItem products s pid size q (AxiosResult.resp r)
      = (saveCartToStore (copyCart c) s,
         [Evt.networkPost "/api/cart/update",
          Evt.toastSuccess (r.message.getD "Cart updated")]) := by
  simp [updateCartItem, hf, hsz, hval, hauth, hsucc, hobj]

theorem getCartData_success_eq (s : ShopState) (items : List CartLine)
    (hauth : authRoute s = true) :
    getCartData s (AxiosResult.resp { success := true, cartItems := some items })
      = (saveCartToStore (buildFromLinesPos items) s,
         [Evt.networkPost "/api/cart"]) := by
  have hauth' := hauth
  rw [authRoute, Bool.and_eq_true] at hauth'
  obtain ⟨ht, hc⟩ := hauth'
  simp [getCartData, ht, hc]

theorem removeCartItem_auth_arr_eq (products : List Product) (s : ShopState)
    (pid size : String) (r : RemoveResp) (items : List CartLine) (P : Product)
    (hf : findProduct products pid = some P)
    (hsz : size ∈ P.sizes)
    (hauth : authRoute s = true)
    (hsucc : r.success = true)
    (harr : r.cartData = some items) :
    removeCartItem products s pid size (AxiosResult.resp r)
      = (saveCartToStore (buildFromLinesPos items) s,
         [Evt.networkPost "/api/cart/remove",
          Evt.toastSuccess (r.message.getD "Removed from cart")]) := by
  simp [removeCartItem, hf, hsz, hauth, hsucc, harr]

/-- Claim C10: when authenticated, successful `addCartItem` and (object-shaped)
`updateCartItem` adopt the server's returned `cartData` verbatim — every
returned `(productId, size, quantity)` entry is copied, including entries with
zero or negative quantity — whereas `getCartData` and the array-shaped
`removeCartItem` response rebuild the cart keeping only quantities > 0, so
non-positive lines can enter the authoritative cart through add and update but
never through fetch or the array-shaped remove. -/
theorem c10_response_adoption
    (products : List Product) (s : ShopState) (P : Product) (size : String)
    (q : Int) (items : List CartLine) (c : CartData)
    (ra : AddResp) (ru : UpdateResp) (rr : RemoveResp)
    (hfind : findProduct products P._id = some P)
    (hsize : size ∈ P.sizes)
    (hq : q ≤ P.stock)
    (hauth : authRoute s = true)
    (hwf : CartWF c)
    (hras : ra.success = true) (hrac : ra.cartData = c)
    (hrus : ru.success = true) (hruc : ru.cartData = RespCartData.obj c)
    (hrrs : rr.success = true) (hrrc : rr.cartData = some items) :
    (addCartItem products s P._id size q (AxiosResult.resp ra)).1.cartItem = c ∧
    (updateCartItem products s P._id size q (AxiosResult.resp ru)).1.cartItem = c ∧
    cartPos (getCartData s
      (AxiosResult.resp { success := true, cartItems := some items })).1.cartItem ∧
    cartPos (removeCartItem products s P._id size
      (AxiosResult.resp rr)).1.cartItem := by
  have hstock : ¬ (P.stock < q) := by omega
  have hval : ¬ (0 < q ∧ P.stock < q) := by omega
  refine ⟨?_, ?_, ?_, ?_⟩
  · rw [addCartItem_auth_success_eq products s P._id size q ra P hfind hsize
      hstock hauth hras]
    simp [saveCartToStore, hrac, copyCart_eq_self hwf]
  · rw [updateCartItem_auth_obj_eq products s P._id size q ru c P hfind hsize
      hval hauth hrus hruc]
    simp [saveCartToStore, copyCart_eq_self hwf]
  · rw [getCartData_success_eq s items hauth]
    simpa [saveCartToStore] using buildFromLinesPos_pos items
  · rw [removeCartItem_auth_arr_eq products s P._id size rr items P hfind hsize
      hauth hrrs hrrc]
    simpa [saveCartToStore] using buildFromLinesPos_pos items

/-- Claim C10 witness: a concrete server response carrying a zero-quantity
line enters the cart verbatim through add/update, while fetch keeps the
invariant. -/
theorem c10_witness :
    (addCartItem demoCatalog
      { storeCart := [], cartItem := [], token := some "t", csrfToken := some "c" }
      "A" "M" 1
      (AxiosResult.resp
        { success := true, message := none,
          cartData := [("A", [("M", 0)])] })).1.cartItem = [("A", [("M", 0)])] ∧
    (updateCartItem demoCatalog
      { storeCart := [], cartItem := [], token := some "t", csrfToken := some "c" }
      "A" "M" 1
      (AxiosResult.resp
        { success := true, message := none,
          cartData := RespCartData.obj [("A", [("M", 0)])] })).1.cartItem
      = [("A", [("M", 0)])] ∧
    cartPos (getCartData
      { storeCart := [], cartItem := [], token := some "t", csrfToken := some "c" }
      (AxiosResult.resp
        { success := true,
          cartItems := some [{ productId := "A", size := "M", quantity := 0 }] })).1.cartItem ∧
    cartPos (removeCartItem demoCatalog
      { storeCart := [], cartItem := [], token := some "t", csrfToken := some "c" }
      "A" "M"
      (AxiosResult.resp
        { success := true, message := none,
          cartData := some [{ productId := "A", size := "M", quantity := 0 }] })).1.cartItem :=
  c10_response_adoption demoCatalog
    { storeCart := [], cartItem := [], token := some "t", csrfToken := some "c" }
    demoProduct "M" 1 [{ productId := "A", size := "M", quantity := 0 }]
    [("A", [("M", 0)])]
    { success := true, message := none, cartData := [("A", [("M", 0)])] }
    { success := true, message := none,
      cartData := RespCartData.obj [("A", [("M", 0)])] }
    { success := true, message := none,
      cartData := some [{ productId := "A", size := "M", quantity := 0 }] }
    (by decide) (by decide) (by decide) (by decide)
    (by constructor <;> decide) rfl rfl rfl rfl rfl rfl
